import Mathlib

/-!
Shallow embedding of the account service in src/app.js: an in-memory user
store keyed by user_id, with signup, authenticated retrieval, authenticated
partial update, and authenticated account deletion over HTTP Basic auth.
Request-body fields are JSON values; a field that can be a string, JSON null,
or absent is modelled by the three-valued type JVal (express.json never
produces the JS value undefined for a present key, so key-absence and
undefined coincide for parsed JSON bodies, exactly as the destructuring in
the handlers sees them).
-/

/-- A JSON field value as the handlers in app.js observe it after
destructuring the parsed body: absent (JS undefined), JSON null, or a
string. -/
inductive JVal where
  | undef : JVal
  | jnull : JVal
  | jstr : String → JVal
deriving DecidableEq, Repr

/-- JS truthiness restricted to the values of JVal: undefined and null are
falsy, a string is falsy exactly when it is empty. Mirrors the use of
`!user_id || !password` in the signup handler of app.js. -/
def JVal.isTruthy : JVal → Bool
  | .undef => false
  | .jnull => false
  | .jstr s => !(s == "")

/-- The string carried by a JVal; returns "" on undefined and null. Only
used at points where the code has already established the value is a
non-empty string. -/
def JVal.asStr : JVal → String
  | .undef => ""
  | .jnull => ""
  | .jstr s => s

/-- The JS nullish-coalescing operator on JVal: `a ?? b` yields b exactly
when a is undefined or null. Mirrors `nickname ?? user_id` and
`comment ?? null` in the signup handler of app.js. -/
def JVal.coalesce : JVal → JVal → JVal
  | .undef, d => d
  | .jnull, d => d
  | v, _ => v

/-- One character of the class [A-Za-z0-9] used by isValidUserId. -/
def isAlnumAscii (c : Char) : Bool :=
  (('A' ≤ c && c ≤ 'Z') || ('a' ≤ c && c ≤ 'z') || ('0' ≤ c && c ≤ '9'))

/-- Embeds the regex test `/^[A-Za-z0-9]{6,20}$/` from app.js line 37:
6 to 20 ASCII alphanumeric characters. -/
def isValidUserId (s : String) : Bool :=
  6 ≤ s.length && s.length ≤ 20 && s.data.all isAlnumAscii

/-- Embeds the regex test `/^[\x21-\x7E]{8,20}$/` from app.js line 38:
8 to 20 visible ASCII characters (no space, no control characters). -/
def isValidPassword (s : String) : Bool :=
  8 ≤ s.length && s.length ≤ 20 &&
    s.data.all (fun c => 0x21 ≤ c.toNat && c.toNat ≤ 0x7E)

/-- Embeds the regex test `/^[^\x00-\x1F\x7F]*$/` from app.js line 39:
no control characters anywhere in the string. -/
def noCtrl (s : String) : Bool :=
  s.data.all (fun c => !(c.toNat ≤ 0x1F) && !(c.toNat == 0x7F))

/-- Modelled from the spec: the Password Hasher collaborator (spec section 2,
one-way salted hash plus verify; bcrypt in app.js) is modelled as a
deterministic tagging function. Its contract, used by the proofs, is that
`bcryptCompare p h` holds exactly when h is the hash of p. -/
def bcryptHash (p : String) : String := "bcrypt-hash:" ++ p

/-- Modelled from the spec: verification side of the Password Hasher
collaborator (bcrypt.compare in app.js). -/
def bcryptCompare (p h : String) : Bool := h == bcryptHash p

/-- Parsed Basic credentials, the result of parseBasicAuth in app.js. -/
structure Cred where
  user_id : String
  password : String
deriving DecidableEq, Repr

/-- Whitespace as matched by the regex class \s and by String.trim in the
header parsing of app.js (restricted to its ASCII members; the headers the
claims quantify over only exercise these). -/
def jsWhitespace (c : Char) : Bool :=
  c.toNat == 0x20 || c.toNat == 0x09 || c.toNat == 0x0A ||
    c.toNat == 0x0D || c.toNat == 0x0B || c.toNat == 0x0C

/-- The test `/^Basic\s*/i.test(h)` from app.js line 44: the header starts
with the five letters of Basic, case-insensitively (the trailing \s* can
match the empty string, so only the five letters are required). -/
def isBasicHeader (h : String) : Bool :=
  match h.data with
  | b :: a :: s :: i :: c :: _ =>
    b.toLower == 'b' && a.toLower == 'a' && s.toLower == 's' &&
      i.toLower == 'i' && c.toLower == 'c'
  | _ => false

/-- JS String.trim on both ends, with the whitespace class of app.js header
parsing. -/
def trimJs (s : String) : String :=
  String.mk (((s.data.dropWhile jsWhitespace).reverse.dropWhile jsWhitespace).reverse)

/-- The base64 payload extracted by `h.replace(/^Basic\s*/i, "").trim()` in
app.js line 45: drop the five letters of Basic, the following whitespace
run, and trim. -/
def basicPayload (h : String) : String :=
  trimJs (String.mk ((h.data.drop 5).dropWhile jsWhitespace))

/-- Split a character list at the first colon, as `raw.indexOf(":")` with the
two slices does in app.js lines 52-54; none when no colon occurs. -/
def splitColon : List Char → Option (List Char × List Char)
  | [] => none
  | c :: rest =>
    if c = ':' then some ([], rest)
    else
      match splitColon rest with
      | none => none
      | some (a, b) => some (c :: a, b)

/-- parseBasicAuth from app.js lines 42-55. The base64 decoder
(Buffer.from(b64, "base64").toString("utf8"), an external library that, on
string input, always yields a string) is passed in as the function decode.
A missing header is the empty string, per `req.header(...) || ""`. -/
def parseBasicAuth (decode : String → String) (authHeader : Option String) :
    Option Cred :=
  let h := authHeader.getD ""
  if !isBasicHeader h then none
  else
    let raw := decode (basicPayload h)
    match splitColon raw.data with
    | none => none
    | some (a, b) => some ⟨String.mk a, String.mk b⟩

/-- A stored user record, as kept in the users Map of app.js: nickname and
comment are JSON field values (signup stores null for an absent comment). -/
structure UserRec where
  user_id : String
  passwordHash : String
  nickname : JVal
  comment : JVal
deriving DecidableEq, Repr

/-- Lookup in an association list by key, first match wins; the model of
Map.prototype.get. -/
def lookupE : List (String × UserRec) → String → Option UserRec
  | [], _ => none
  | e :: rest, k => if e.1 = k then some e.2 else lookupE rest k

/-- Replace the binding of a key in place, or append it; the model of
Map.prototype.set. -/
def setE : List (String × UserRec) → String → UserRec → List (String × UserRec)
  | [], k, v => [(k, v)]
  | e :: rest, k, v => if e.1 = k then (k, v) :: rest else e :: setE rest k v

/-- Remove the bindings of a key; the model of Map.prototype.delete. -/
def eraseE (l : List (String × UserRec)) (k : String) : List (String × UserRec) :=
  l.filter (fun e => !(e.1 = k : Bool))

/-- The in-memory users Map of app.js line 34, keyed by user_id. -/
structure Store where
  entries : List (String × UserRec)
deriving DecidableEq, Repr

/-- users.get(k). -/
def Store.get (st : Store) (k : String) : Option UserRec :=
  lookupE st.entries k

/-- users.has(k). -/
def Store.has (st : Store) (k : String) : Bool :=
  (st.get k).isSome

/-- users.set(k, v). -/
def Store.set (st : Store) (k : String) (v : UserRec) : Store :=
  ⟨setE st.entries k v⟩

/-- users.delete(k). -/
def Store.erase (st : Store) (k : String) : Store :=
  ⟨eraseE st.entries k⟩

/-- Every stored record's user_id field equals its key in the store. -/
def Store.wf (st : Store) : Prop :=
  ∀ k u, st.get k = some u → u.user_id = k

/-- The user object of a JSON response body: user_id, nickname (a JSON
value: the GET handler of app.js copies the stored field when it is neither
undefined nor empty), and comment, which is either omitted (none) or
present with a JSON value. -/
structure RespUser where
  user_id : String
  nickname : JVal
  comment : Option JVal
deriving DecidableEq, Repr

/-- An HTTP response of app.js: status, message, optional cause (on 400),
optional user object. -/
structure Resp where
  status : Nat
  message : String
  cause : Option String
  user : Option RespUser
deriving DecidableEq, Repr

/-- A status-plus-message response with no cause and no user object. -/
def errResp (status : Nat) (message : String) : Resp :=
  ⟨status, message, none, none⟩

/-- A 400 response carrying a cause. -/
def causeResp (message cause : String) : Resp :=
  ⟨400, message, some cause, none⟩

/-- authUserAsync from app.js lines 57-64: parse Basic credentials, look the
user up by user_id, verify the password against the stored hash; any
failure yields none (the handlers turn none into 401). -/
def authUser (decode : String → String) (st : Store) (authHeader : Option String) :
    Option UserRec :=
  match parseBasicAuth decode authHeader with
  | none => none
  | some cred =>
    match st.get cred.user_id with
    | none => none
    | some u => if bcryptCompare cred.password u.passwordHash then some u else none

/-- The request body of POST /signup as destructured in app.js line 68;
a key absent from the JSON body destructures to undefined (JVal.undef). -/
structure SignupReq where
  user_id : JVal
  password : JVal
  nickname : JVal
  comment : JVal
deriving DecidableEq, Repr

/-- The POST /signup handler of app.js lines 67-115: presence, length,
character-pattern and duplicate checks in that order, each failure a 400
with its cause; on success the record is stored (nickname defaulted with ??
to user_id, comment defaulted with ?? to null) and the 200 response echoes
user_id as the nickname. Returns the response and the store after the
request. -/
def signup (st : Store) (req : SignupReq) : Resp × Store :=
  if !req.user_id.isTruthy || !req.password.isTruthy then
    (causeResp "Account creation failed" "Required user_id and password", st)
  else
    let uid := req.user_id.asStr
    let pw := req.password.asStr
    if uid.length < 6 || 20 < uid.length ||
        pw.length < 8 || 20 < pw.length then
      (causeResp "Account creation failed" "Input length is incorrect", st)
    else if !isValidUserId uid || !isValidPassword pw then
      (causeResp "Account creation failed" "Incorrect character pattern", st)
    else if st.has uid then
      (causeResp "Account creation failed" "Already same user_id is used", st)
    else
      let newRec : UserRec :=
        ⟨uid, bcryptHash pw, req.nickname.coalesce (JVal.jstr uid),
          req.comment.coalesce JVal.jnull⟩
      (⟨200, "Account successfully created", none,
          some ⟨uid, JVal.jstr uid, none⟩⟩,
        st.set uid newRec)

/-- The GET /users/:user_id handler of app.js lines 118-138: 401 when
authentication fails, 404 when the path user_id is not stored, otherwise
200 with the effective nickname (the stored user_id when the stored
nickname is undefined or empty) and with the comment field included exactly
when the stored comment is neither undefined nor the empty string. -/
def getUser (decode : String → String) (st : Store) (authHeader : Option String)
    (pathId : String) : Resp :=
  match authUser decode st authHeader with
  | none => errResp 401 "Authentication failed"
  | some _ =>
    match st.get pathId with
    | none => errResp 404 "No user found"
    | some u =>
      let nickname :=
        if u.nickname = JVal.undef ∨ u.nickname = JVal.jstr "" then
          JVal.jstr u.user_id
        else u.nickname
      let commentField :=
        if u.comment ≠ JVal.undef ∧ u.comment ≠ JVal.jstr "" then
          some u.comment
        else none
      ⟨200, "User details by user_id", none,
        some ⟨u.user_id, nickname, commentField⟩⟩

/-- The request body of PATCH /users/:user_id as destructured in app.js
lines 154-159; for a parsed JSON body a key is present exactly when its
destructured value is not undefined (JVal.undef), which is also how lines
168-175 compute hasOwnProperty for nickname and comment. -/
structure PatchReq where
  nickname : JVal
  comment : JVal
  user_id : JVal
  password : JVal
deriving DecidableEq, Repr

/-- The nickname field check of app.js lines 183-193: the value must be a
string, and when non-empty must contain no control characters and be at
most 30 characters. -/
def validNickField (v : JVal) : Bool :=
  match v with
  | .jstr s => s == "" || (noCtrl s && s.length ≤ 30)
  | _ => false

/-- The comment field check of app.js lines 195-205: the value must be a
string, and when non-empty must contain no control characters and be at
most 100 characters. -/
def validCommentField (v : JVal) : Bool :=
  match v with
  | .jstr s => s == "" || (noCtrl s && s.length ≤ 100)
  | _ => false

/-- The record update of app.js lines 207-208: an empty-string nickname
resets the stored nickname to the record's user_id, any nickname string
overwrites; a comment string overwrites (the `comment === "" ? "" : comment`
expression is the identity on strings); absent keys leave fields as they
were. -/
def applyPatch (u : UserRec) (body : PatchReq) : UserRec :=
  let u1 :=
    if body.nickname ≠ JVal.undef then
      { u with nickname :=
          if body.nickname = JVal.jstr "" then JVal.jstr u.user_id
          else body.nickname }
    else u
  if body.comment ≠ JVal.undef then
    { u1 with comment :=
        if body.comment = JVal.jstr "" then JVal.jstr "" else body.comment }
  else u1

/-- The PATCH /users/:user_id handler of app.js lines 141-220: 401 on
authentication failure, then 404 when the path user_id is not stored, then
403 when the principal is not the target, then the body checks (user_id or
password key present; neither nickname nor comment key; invalid field
values), then the update and a 200 echoing the final record with the
comment field always present ("" substituted only for undefined). -/
def patchUser (decode : String → String) (st : Store) (authHeader : Option String)
    (pathId : String) (body : PatchReq) : Resp × Store :=
  match authUser decode st authHeader with
  | none => (errResp 401 "Authentication failed", st)
  | some principal =>
    match st.get pathId with
    | none => (errResp 404 "No user found", st)
    | some u =>
      if principal.user_id ≠ pathId then
        (errResp 403 "No permission for update", st)
      else if body.user_id ≠ JVal.undef ∨ body.password ≠ JVal.undef then
        (causeResp "User updation failed" "Not updatable user_id and password", st)
      else if body.nickname = JVal.undef ∧ body.comment = JVal.undef then
        (causeResp "User updation failed" "Required nickname or comment", st)
      else if body.nickname ≠ JVal.undef ∧ !validNickField body.nickname then
        (causeResp "User updation failed"
          "String length limit exceeded or containing invalid characters", st)
      else if body.comment ≠ JVal.undef ∧ !validCommentField body.comment then
        (causeResp "User updation failed"
          "String length limit exceeded or containing invalid characters", st)
      else
        let u2 := applyPatch u body
        (⟨200, "User successfully updated", none,
            some ⟨u2.user_id,
              (if u2.nickname = JVal.undef ∨ u2.nickname = JVal.jstr "" then
                JVal.jstr u2.user_id
              else u2.nickname),
              some (if u2.comment = JVal.undef then JVal.jstr "" else u2.comment)⟩⟩,
          st.set pathId u2)

/-- The POST /close handler of app.js lines 223-232: 401 on authentication
failure, otherwise the authenticated principal's record is deleted and the
response is 200. -/
def closeUser (decode : String → String) (st : Store) (authHeader : Option String) :
    Resp × Store :=
  match authUser decode st authHeader with
  | none => (errResp 401 "Authentication failed", st)
  | some principal =>
    (errResp 200 "Account and user successfully removed",
      st.erase principal.user_id)

/-- A concrete signup request without nickname and comment, used by the
concrete instances below. -/
def reqA : SignupReq :=
  ⟨JVal.jstr "userAAA1", JVal.jstr "Passw0rd!", JVal.undef, JVal.undef⟩

/-- The store that results from running reqA against the empty store: it
holds one record, keyed "userAAA1", whose comment is JSON null. -/
def stA : Store := (signup ⟨[]⟩ reqA).2

/-- A base64 decoder (the external collaborator of parseBasicAuth) that
decodes every payload to the credentials of the reqA account. -/
def decodeA : String → String := fun _ => "userAAA1:Passw0rd!"

/-- A well-formed Basic authorization header for use with decodeA. -/
def hdrA : Option String := some "Basic x"

theorem lookupE_setE_self (l : List (String × UserRec)) (k : String) (v : UserRec) :
    lookupE (setE l k v) k = some v := by
  induction l with
  | nil => simp [setE, lookupE]
  | cons e rest ih =>
    by_cases h : e.1 = k
    · simp [setE, h, lookupE]
    · simp [setE, h, lookupE, ih]

theorem lookupE_setE_ne (l : List (String × UserRec)) (k k' : String) (v : UserRec)
    (hne : k' ≠ k) : lookupE (setE l k v) k' = lookupE l k' := by
  induction l with
  | nil => simp [setE, lookupE, Ne.symm hne]
  | cons e rest ih =>
    by_cases h : e.1 = k
    · simp [setE, h, lookupE, Ne.symm hne]
    · by_cases h2 : e.1 = k'
      · simp [setE, h, lookupE, h2, hne]
      · simp [setE, h, lookupE, h2, ih]

theorem lookupE_eraseE_self (l : List (String × UserRec)) (k : String) :
    lookupE (eraseE l k) k = none := by
  induction l with
  | nil => simp [eraseE, lookupE]
  | cons e rest ih =>
    by_cases h : e.1 = k
    · simpa [eraseE, List.filter_cons, h] using ih
    · simpa [eraseE, List.filter_cons, h, lookupE] using ih

theorem lookupE_eraseE_ne (l : List (String × UserRec)) (k k' : String)
    (hne : k' ≠ k) : lookupE (eraseE l k) k' = lookupE l k' := by
  induction l with
  | nil => simp [eraseE, lookupE]
  | cons e rest ih =>
    by_cases h : e.1 = k
    · simpa [eraseE, List.filter_cons, h, lookupE, Ne.symm hne] using ih
    · by_cases h2 : e.1 = k'
      · simp [eraseE, List.filter_cons, h, lookupE, h2, hne]
      · simpa [eraseE, List.filter_cons, h, lookupE, h2] using ih

theorem Store.get_set_self (st : Store) (k : String) (v : UserRec) :
    (st.set k v).get k = some v :=
  lookupE_setE_self st.entries k v

theorem Store.get_set_ne (st : Store) (k k' : String) (v : UserRec)
    (hne : k' ≠ k) : (st.set k v).get k' = st.get k' :=
  lookupE_setE_ne st.entries k k' v hne

theorem Store.get_erase_self (st : Store) (k : String) :
    (st.erase k).get k = none :=
  lookupE_eraseE_self st.entries k

theorem Store.get_erase_ne (st : Store) (k k' : String)
    (hne : k' ≠ k) : (st.erase k).get k' = st.get k' :=
  lookupE_eraseE_ne st.entries k k' hne

/-- Claim C1: for every successful signup (status 200), the response body's
user.nickname equals the submitted user_id, even when a distinct non-empty
nickname was supplied in the request and stored in the record (the second
conjunct shows the stored nickname is the supplied one). -/
theorem C1_signup_response_nickname_echoes_user_id
    (st : Store) (req : SignupReq)
    (h : (signup st req).1.status = 200) :
    (signup st req).1.user =
      some ⟨req.user_id.asStr, JVal.jstr req.user_id.asStr, none⟩ ∧
    ∀ nick, req.nickname = JVal.jstr nick →
      ((signup st req).2.get req.user_id.asStr).map UserRec.nickname =
        some (JVal.jstr nick) := by
  simp only [signup] at h ⊢
  split_ifs at h ⊢ with h1 h2 h3 h4
  · simp [causeResp] at h
  · simp [causeResp] at h
  · simp [causeResp] at h
  · simp [causeResp] at h
  · refine ⟨rfl, ?_⟩
    intro nick hn
    simp [Store.get_set_self, hn, JVal.coalesce]

/-- Witness for C1: a concrete signup with a distinct non-empty nickname. -/
theorem C1_witness :
    (signup ⟨[]⟩ ⟨JVal.jstr "validUser1", JVal.jstr "Passw0rd!",
        JVal.jstr "Nick", JVal.undef⟩).1.user =
      some ⟨"validUser1", JVal.jstr "validUser1", none⟩ ∧
    ((signup ⟨[]⟩ ⟨JVal.jstr "validUser1", JVal.jstr "Passw0rd!",
        JVal.jstr "Nick", JVal.undef⟩).2.get "validUser1").map UserRec.nickname =
      some (JVal.jstr "Nick") := by
  have h := C1_signup_response_nickname_echoes_user_id ⟨[]⟩
    ⟨JVal.jstr "validUser1", JVal.jstr "Passw0rd!", JVal.jstr "Nick", JVal.undef⟩
    (by decide)
  exact ⟨h.1, h.2 "Nick" rfl⟩

/-- Claim C3: signup validation runs in the fixed order presence, length,
character pattern, duplicate user_id, the first failing rule determining
the 400 cause; in particular a user_id of length 5 or 21 fails with the
length cause (not the pattern cause), and user_id "abc 123456" (length in
range but containing a space) fails with the pattern cause. -/
theorem C3_signup_validation_order (st : Store) (req : SignupReq) :
    ((req.user_id.isTruthy = false ∨ req.password.isTruthy = false) →
      (signup st req).1 =
        causeResp "Account creation failed" "Required user_id and password") ∧
    (req.user_id.isTruthy = true → req.password.isTruthy = true →
      (req.user_id.asStr.length < 6 ∨ 20 < req.user_id.asStr.length ∨
        req.password.asStr.length < 8 ∨ 20 < req.password.asStr.length) →
      (signup st req).1 =
        causeResp "Account creation failed" "Input length is incorrect") ∧
    (req.user_id.isTruthy = true → req.password.isTruthy = true →
      6 ≤ req.user_id.asStr.length → req.user_id.asStr.length ≤ 20 →
      8 ≤ req.password.asStr.length → req.password.asStr.length ≤ 20 →
      (isValidUserId req.user_id.asStr = false ∨
        isValidPassword req.password.asStr = false) →
      (signup st req).1 =
        causeResp "Account creation failed" "Incorrect character pattern") ∧
    (req.user_id.isTruthy = true → req.password.isTruthy = true →
      isValidUserId req.user_id.asStr = true →
      isValidPassword req.password.asStr = true →
      st.has req.user_id.asStr = true →
      (signup st req).1 =
        causeResp "Account creation failed" "Already same user_id is used") ∧
    (∀ uid, req.user_id = JVal.jstr uid →
      (uid.length = 5 ∨ uid.length = 21) →
      req.password.isTruthy = true →
      (signup st req).1 =
        causeResp "Account creation failed" "Input length is incorrect") ∧
    (∀ pw, req.user_id = JVal.jstr "abc 123456" → req.password = JVal.jstr pw →
      8 ≤ pw.length → pw.length ≤ 20 →
      (signup st req).1 =
        causeResp "Account creation failed" "Incorrect character pattern") := by
  refine ⟨?_, ?_, ?_, ?_, ?_, ?_⟩
  · intro h
    simp only [signup]
    rw [if_pos]
    rcases h with h | h <;> simp [h]
  · intro hu hp hlen
    simp only [signup]
    rw [if_neg, if_pos]
    · rcases hlen with h | h | h | h <;> simp [h]
    · simp [hu, hp]
  · intro hu hp l1 l2 l3 l4 hpat
    simp only [signup]
    rw [if_neg, if_neg, if_pos]
    · rcases hpat with h | h <;> simp [h]
    · simp only [Bool.or_eq_true, decide_eq_true_eq, not_or]
      omega
    · simp [hu, hp]
  · intro hu hp hvu hvp hdup
    have l14 : 6 ≤ req.user_id.asStr.length ∧ req.user_id.asStr.length ≤ 20 ∧
        8 ≤ req.password.asStr.length ∧ req.password.asStr.length ≤ 20 := by
      simp [isValidUserId] at hvu
      simp [isValidPassword] at hvp
      exact ⟨hvu.1.1, hvu.1.2, hvp.1.1, hvp.1.2⟩
    simp only [signup]
    rw [if_neg, if_neg, if_neg, if_pos]
    · exact hdup
    · simp [hvu, hvp]
    · simp only [Bool.or_eq_true, decide_eq_true_eq, not_or]
      omega
    · simp [hu, hp]
  · intro uid hu hlen hp
    have htru : req.user_id.isTruthy = true := by
      rw [hu]
      simp [JVal.isTruthy]
      intro hemp
      rw [hemp] at hlen
      simp at hlen
    simp only [signup]
    rw [if_neg, if_pos]
    · rcases hlen with h | h <;> simp [hu, JVal.asStr, h]
    · simp [htru, hp]
  · intro pw hu hp hl1 hl2
    obtain ⟨ruid, rpw, rnick, rcomm⟩ := req
    cases hu
    cases hp
    have hpw : pw ≠ "" := by
      intro hemp
      rw [hemp] at hl1
      simp at hl1
    have hten : ("abc 123456" : String).length = 10 := by decide
    have hbad : isValidUserId "abc 123456" = false := by decide
    simp only [signup, JVal.isTruthy, JVal.asStr]
    rw [if_neg, if_neg, if_pos]
    · simp [hbad]
    · simp only [Bool.or_eq_true, decide_eq_true_eq, not_or]
      omega
    · simp [hpw]

/-- Witness for C3: a length-5 user_id draws the length cause and the
user_id "abc 123456" draws the pattern cause, on the empty store. -/
theorem C3_witness :
    (signup ⟨[]⟩ ⟨JVal.jstr "abc12", JVal.jstr "Passw0rd!",
        JVal.undef, JVal.undef⟩).1 =
      causeResp "Account creation failed" "Input length is incorrect" ∧
    (signup ⟨[]⟩ ⟨JVal.jstr "abc 123456", JVal.jstr "Passw0rd!",
        JVal.undef, JVal.undef⟩).1 =
      causeResp "Account creation failed" "Incorrect character pattern" := by
  constructor
  · exact (C3_signup_validation_order ⟨[]⟩ _).2.2.2.2.1 "abc12" rfl
      (Or.inl (by decide)) (by decide)
  · exact (C3_signup_validation_order ⟨[]⟩ _).2.2.2.2.2 "Passw0rd!" rfl rfl
      (by decide) (by decide)

theorem patchUser_auth_fail (decode : String → String) (st : Store)
    (h : Option String) (pathId : String) (body : PatchReq)
    (ha : authUser decode st h = none) :
    patchUser decode st h pathId body = (errResp 401 "Authentication failed", st) := by
  simp [patchUser, ha]

theorem patchUser_not_found (decode : String → String) (st : Store)
    (h : Option String) (pathId : String) (body : PatchReq) (p : UserRec)
    (ha : authUser decode st h = some p) (hg : st.get pathId = none) :
    patchUser decode st h pathId body = (errResp 404 "No user found", st) := by
  simp [patchUser, ha, hg]

theorem patchUser_forbidden (decode : String → String) (st : Store)
    (h : Option String) (pathId : String) (body : PatchReq) (p u : UserRec)
    (ha : authUser decode st h = some p) (hg : st.get pathId = some u)
    (hne : p.user_id ≠ pathId) :
    patchUser decode st h pathId body = (errResp 403 "No permission for update", st) := by
  simp [patchUser, ha, hg, hne]

theorem patchUser_key_reject (decode : String → String) (st : Store)
    (h : Option String) (pathId : String) (body : PatchReq) (p u : UserRec)
    (ha : authUser decode st h = some p) (hg : st.get pathId = some u)
    (hown : p.user_id = pathId)
    (hkey : body.user_id ≠ JVal.undef ∨ body.password ≠ JVal.undef) :
    patchUser decode st h pathId body =
      (causeResp "User updation failed" "Not updatable user_id and password", st) := by
  simp only [patchUser, ha, hg]
  rw [if_neg (by simp [hown]), if_pos hkey]

theorem patchUser_required_reject (decode : String → String) (st : Store)
    (h : Option String) (pathId : String) (body : PatchReq) (p u : UserRec)
    (ha : authUser decode st h = some p) (hg : st.get pathId = some u)
    (hown : p.user_id = pathId)
    (hbu : body.user_id = JVal.undef) (hbp : body.password = JVal.undef)
    (hnone : body.nickname = JVal.undef ∧ body.comment = JVal.undef) :
    patchUser decode st h pathId body =
      (causeResp "User updation failed" "Required nickname or comment", st) := by
  simp only [patchUser, ha, hg]
  rw [if_neg (by simp [hown]), if_neg (by simp [hbu, hbp]), if_pos hnone]

theorem patchUser_success (decode : String → String) (st : Store)
    (h : Option String) (pathId : String) (body : PatchReq) (p u : UserRec)
    (ha : authUser decode st h = some p) (hg : st.get pathId = some u)
    (hown : p.user_id = pathId)
    (hbu : body.user_id = JVal.undef) (hbp : body.password = JVal.undef)
    (hsome : ¬(body.nickname = JVal.undef ∧ body.comment = JVal.undef))
    (hnick : body.nickname ≠ JVal.undef → validNickField body.nickname = true)
    (hcomm : body.comment ≠ JVal.undef → validCommentField body.comment = true) :
    patchUser decode st h pathId body =
      (⟨200, "User successfully updated", none,
          some ⟨(applyPatch u body).user_id,
            (if (applyPatch u body).nickname = JVal.undef ∨
                (applyPatch u body).nickname = JVal.jstr "" then
              JVal.jstr (applyPatch u body).user_id
            else (applyPatch u body).nickname),
            some (if (applyPatch u body).comment = JVal.undef then JVal.jstr ""
              else (applyPatch u body).comment)⟩⟩,
        st.set pathId (applyPatch u body)) := by
  simp only [patchUser, ha, hg]
  rw [if_neg (by simp [hown]), if_neg (by simp [hbu, hbp]), if_neg hsome,
    if_neg (by rintro ⟨h1, h2⟩; rw [hnick h1] at h2; simp at h2),
    if_neg (by rintro ⟨h1, h2⟩; rw [hcomm h1] at h2; simp at h2)]

theorem applyPatch_user_id (u : UserRec) (body : PatchReq) :
    (applyPatch u body).user_id = u.user_id := by
  simp only [applyPatch]
  split_ifs <;> rfl

/-- Claim C4: PATCH applies its checks in the order authentication (401),
target-record existence (404), then ownership (403); an authenticated PATCH
targeting a nonexistent user_id yields 404, never 403. -/
theorem C4_patch_check_order (decode : String → String) (st : Store)
    (h : Option String) (pathId : String) (body : PatchReq) :
    (authUser decode st h = none →
      (patchUser decode st h pathId body).1 = errResp 401 "Authentication failed") ∧
    (∀ p, authUser decode st h = some p → st.get pathId = none →
      (patchUser decode st h pathId body).1 = errResp 404 "No user found") ∧
    (∀ p u, authUser decode st h = some p → st.get pathId = some u →
      p.user_id ≠ pathId →
      (patchUser decode st h pathId body).1 = errResp 403 "No permission for update") :=
  ⟨fun ha => by rw [patchUser_auth_fail decode st h pathId body ha],
    fun p ha hg => by rw [patchUser_not_found decode st h pathId body p ha hg],
    fun p u ha hg hne => by
      rw [patchUser_forbidden decode st h pathId body p u ha hg hne]⟩

/-- Witness for C4: an authenticated PATCH whose path user_id is not stored
answers 404. -/
theorem C4_witness :
    (patchUser decodeA stA hdrA "ghostUser"
        ⟨JVal.jstr "N", JVal.undef, JVal.undef, JVal.undef⟩).1 =
      errResp 404 "No user found" :=
  (C4_patch_check_order decodeA stA hdrA "ghostUser" _).2.1
    ⟨"userAAA1", bcryptHash "Passw0rd!", JVal.jstr "userAAA1", JVal.jnull⟩
    (by decide) (by decide)

/-- Claim C5: for an authenticated owner PATCH on an existing record, a body
containing a user_id or password key is rejected with the cause Not
updatable user_id and password regardless of value, and this check precedes
the Required nickname or comment rule (so that cause entails both keys were
absent). -/
theorem C5_patch_rejects_user_id_password_keys (decode : String → String)
    (st : Store) (h : Option String) (pathId : String) (body : PatchReq)
    (p u : UserRec) (ha : authUser decode st h = some p)
    (hg : st.get pathId = some u) (hown : p.user_id = pathId) :
    ((body.user_id ≠ JVal.undef ∨ body.password ≠ JVal.undef) →
      (patchUser decode st h pathId body).1 =
        causeResp "User updation failed" "Not updatable user_id and password") ∧
    ((patchUser decode st h pathId body).1 =
        causeResp "User updation failed" "Required nickname or comment" →
      body.user_id = JVal.undef ∧ body.password = JVal.undef) := by
  constructor
  · intro hkey
    rw [patchUser_key_reject decode st h pathId body p u ha hg hown hkey]
  · intro hcause
    by_cases hk : body.user_id = JVal.undef ∧ body.password = JVal.undef
    · exact hk
    · exfalso
      rw [not_and_or] at hk
      rw [patchUser_key_reject decode st h pathId body p u ha hg hown hk] at hcause
      simp [causeResp] at hcause

/-- Witness for C5: a body whose only key is user_id is rejected with the
Not updatable cause by the authenticated owner PATCH. -/
theorem C5_witness :
    (patchUser decodeA stA hdrA "userAAA1"
        ⟨JVal.undef, JVal.undef, JVal.jstr "x", JVal.undef⟩).1 =
      causeResp "User updation failed" "Not updatable user_id and password" :=
  (C5_patch_rejects_user_id_password_keys decodeA stA hdrA "userAAA1" _
    ⟨"userAAA1", bcryptHash "Passw0rd!", JVal.jstr "userAAA1", JVal.jnull⟩
    ⟨"userAAA1", bcryptHash "Passw0rd!", JVal.jstr "userAAA1", JVal.jnull⟩
    (by decide) (by decide) rfl).1 (Or.inl (by decide))

/-- Counterexample to claim C2: a record created by signup without a comment
stores JSON null as the comment, and an authenticated GET on it returns a
user object whose comment field is present with value null, not omitted
(null passes the strict `!== undefined` test in the GET handler). -/
theorem C2_counterexample :
    (stA.get "userAAA1").map UserRec.comment = some JVal.jnull ∧
    (getUser decodeA stA hdrA "userAAA1").status = 200 ∧
    (getUser decodeA stA hdrA "userAAA1").user =
      some ⟨"userAAA1", JVal.jstr "userAAA1", some JVal.jnull⟩ := by
  decide

/-- Claim C2 amended: on an authenticated GET of an existing record the
response is 200 and the user object carries the comment field exactly when
the stored comment is neither undefined nor the empty string, with the
stored value itself; in particular a stored null comment (the signup
default for an absent comment) is emitted as null rather than omitted. -/
theorem C2_amended_comment_field (decode : String → String) (st : Store)
    (h : Option String) (pathId : String) (p u : UserRec)
    (ha : authUser decode st h = some p) (hg : st.get pathId = some u) :
    (getUser decode st h pathId).status = 200 ∧
    (getUser decode st h pathId).user.map RespUser.comment =
      some (if u.comment ≠ JVal.undef ∧ u.comment ≠ JVal.jstr "" then
          some u.comment
        else none) := by
  simp [getUser, ha, hg]

/-- Witness for the amended C2 on the concrete signup-without-comment
record. -/
theorem C2_amended_witness :
    (getUser decodeA stA hdrA "userAAA1").status = 200 ∧
    (getUser decodeA stA hdrA "userAAA1").user.map RespUser.comment =
      some (if (JVal.jnull ≠ JVal.undef ∧ JVal.jnull ≠ JVal.jstr "") then
          some JVal.jnull
        else none) :=
  C2_amended_comment_field decodeA stA hdrA "userAAA1"
    ⟨"userAAA1", bcryptHash "Passw0rd!", JVal.jstr "userAAA1", JVal.jnull⟩
    ⟨"userAAA1", bcryptHash "Passw0rd!", JVal.jstr "userAAA1", JVal.jnull⟩
    (by decide) (by decide)

/-- Counterexample to claim C6: a successful owner PATCH (here updating only
the nickname) of a record whose comment was never set since signup (stored
null) answers 200 with a comment field equal to null, not the empty string
(the handler substitutes "" only for undefined, and the stored default is
null). -/
theorem C6_counterexample :
    (patchUser decodeA stA hdrA "userAAA1"
        ⟨JVal.jstr "NewNick", JVal.undef, JVal.undef, JVal.undef⟩).1.status = 200 ∧
    (patchUser decodeA stA hdrA "userAAA1"
        ⟨JVal.jstr "NewNick", JVal.undef, JVal.undef, JVal.undef⟩).1.user.map
        RespUser.comment = some (some JVal.jnull) ∧
    some (some JVal.jnull) ≠ some (some (JVal.jstr "")) := by
  decide

/-- Claim C6 amended: for every successful owner PATCH, an empty-string
nickname resets the stored nickname to the record's user_id, a non-empty
nickname or any comment string overwrites the field, absent keys leave
fields unchanged, the user_id is unchanged, and the response echoes the
final record with the comment field always present, where "" is substituted
only when the stored comment is undefined — so a stored null comment is
echoed as null, not as "". -/
theorem C6_amended_patch_success_semantics (decode : String → String)
    (st : Store) (h : Option String) (pathId : String) (body : PatchReq)
    (p u : UserRec) (ha : authUser decode st h = some p)
    (hg : st.get pathId = some u) (hown : p.user_id = pathId)
    (hbu : body.user_id = JVal.undef) (hbp : body.password = JVal.undef)
    (hsome : ¬(body.nickname = JVal.undef ∧ body.comment = JVal.undef))
    (hnick : body.nickname ≠ JVal.undef → validNickField body.nickname = true)
    (hcomm : body.comment ≠ JVal.undef → validCommentField body.comment = true) :
    (patchUser decode st h pathId body).1.status = 200 ∧
    (body.nickname = JVal.jstr "" →
      (applyPatch u body).nickname = JVal.jstr u.user_id) ∧
    (∀ s, s ≠ "" → body.nickname = JVal.jstr s →
      (applyPatch u body).nickname = JVal.jstr s) ∧
    (body.nickname = JVal.undef → (applyPatch u body).nickname = u.nickname) ∧
    (∀ s, body.comment = JVal.jstr s → (applyPatch u body).comment = JVal.jstr s) ∧
    (body.comment = JVal.undef → (applyPatch u body).comment = u.comment) ∧
    (applyPatch u body).user_id = u.user_id ∧
    (patchUser decode st h pathId body).2 = st.set pathId (applyPatch u body) ∧
    (patchUser decode st h pathId body).1.user =
      some ⟨(applyPatch u body).user_id,
        (if (applyPatch u body).nickname = JVal.undef ∨
            (applyPatch u body).nickname = JVal.jstr "" then
          JVal.jstr (applyPatch u body).user_id
        else (applyPatch u body).nickname),
        some (if (applyPatch u body).comment = JVal.undef then JVal.jstr ""
          else (applyPatch u body).comment)⟩ := by
  have hres := patchUser_success decode st h pathId body p u ha hg hown hbu hbp
    hsome hnick hcomm
  refine ⟨by rw [hres], ?_, ?_, ?_, ?_, ?_, applyPatch_user_id u body,
    by rw [hres], by rw [hres]⟩
  · intro hn
    by_cases hc : body.comment = JVal.undef <;> simp [applyPatch, hn, hc]
  · intro s hs hn
    by_cases hc : body.comment = JVal.undef <;> simp [applyPatch, hn, hc, hs]
  · intro hn
    by_cases hc : body.comment = JVal.undef <;> simp [applyPatch, hn, hc]
  · intro s hc
    by_cases hn : body.nickname = JVal.undef <;>
      by_cases hs : s = "" <;>
        simp [applyPatch, hn, hc, hs]
  · intro hc
    by_cases hn : body.nickname = JVal.undef <;> simp [applyPatch, hn, hc]

/-- Witness for the amended C6: the concrete owner PATCH with an
empty-string nickname resets the nickname to the user_id; the response
comment is the stored null. -/
theorem C6_amended_witness :
    (patchUser decodeA stA hdrA "userAAA1"
        ⟨JVal.jstr "", JVal.undef, JVal.undef, JVal.undef⟩).1.status = 200 ∧
    (applyPatch ⟨"userAAA1", bcryptHash "Passw0rd!", JVal.jstr "userAAA1",
        JVal.jnull⟩
      ⟨JVal.jstr "", JVal.undef, JVal.undef, JVal.undef⟩).nickname =
      JVal.jstr "userAAA1" := by
  have hthm := C6_amended_patch_success_semantics decodeA stA hdrA "userAAA1"
    ⟨JVal.jstr "", JVal.undef, JVal.undef, JVal.undef⟩
    ⟨"userAAA1", bcryptHash "Passw0rd!", JVal.jstr "userAAA1", JVal.jnull⟩
    ⟨"userAAA1", bcryptHash "Passw0rd!", JVal.jstr "userAAA1", JVal.jnull⟩
    (by decide) (by decide) rfl rfl rfl (by simp) (fun _ => by decide)
    (fun hc => absurd rfl hc)
  exact ⟨hthm.1, hthm.2.1 rfl⟩

/-- Claim C7: every GET whose Authorization header is absent, not of Basic
form, or whose payload does not decode to a string containing a colon,
parses to no credentials; unmatched or unverified credentials fail
authentication; and every authentication failure answers 401 Authentication
failed regardless of whether the path user_id exists — never a distinct
parse-level error. -/
theorem C7_get_auth_failures_401 (decode : String → String) :
    (parseBasicAuth decode none = none) ∧
    (∀ h, isBasicHeader h = false → parseBasicAuth decode (some h) = none) ∧
    (∀ h, splitColon (decode (basicPayload h)).data = none →
      parseBasicAuth decode (some h) = none) ∧
    (∀ st h, parseBasicAuth decode h = none → authUser decode st h = none) ∧
    (∀ st h cred, parseBasicAuth decode h = some cred →
      st.get cred.user_id = none → authUser decode st h = none) ∧
    (∀ st h cred u, parseBasicAuth decode h = some cred →
      st.get cred.user_id = some u →
      bcryptCompare cred.password u.passwordHash = false →
      authUser decode st h = none) ∧
    (∀ st h pathId, authUser decode st h = none →
      getUser decode st h pathId = errResp 401 "Authentication failed") := by
  refine ⟨rfl, ?_, ?_, ?_, ?_, ?_, ?_⟩
  · intro h hb
    simp [parseBasicAuth, hb]
  · intro h hsplit
    by_cases hb : isBasicHeader h <;> simp [parseBasicAuth, hb, hsplit]
  · intro st h hp
    simp [authUser, hp]
  · intro st h cred hp hget
    simp [authUser, hp, hget]
  · intro st h cred u hp hget hcmp
    simp [authUser, hp, hget, hcmp]
  · intro st h pathId ha
    simp [getUser, ha]

/-- Witness for C7: with no Authorization header, GET answers 401 on a store
where the path user_id does exist (and parsing yields no credentials). -/
theorem C7_witness :
    parseBasicAuth decodeA none = none ∧
    getUser decodeA stA none "userAAA1" = errResp 401 "Authentication failed" :=
  ⟨(C7_get_auth_failures_401 decodeA).1,
    (C7_get_auth_failures_401 decodeA).2.2.2.2.2.2 stA none "userAAA1" (by decide)⟩

/-- Claim C8: every authenticated POST /close answers 200 and removes the
principal's record from the store; afterwards any request whose credentials
carry the same user_id fails authentication, and a GET so authenticated
receives 401. -/
theorem C8_close_removes_record_and_credentials (decode : String → String)
    (st : Store) (h : Option String) (p : UserRec)
    (ha : authUser decode st h = some p) :
    (closeUser decode st h).1 =
      errResp 200 "Account and user successfully removed" ∧
    (closeUser decode st h).2.get p.user_id = none ∧
    (∀ h2 cred, parseBasicAuth decode h2 = some cred →
      cred.user_id = p.user_id →
      authUser decode (closeUser decode st h).2 h2 = none ∧
      ∀ pathId, getUser decode (closeUser decode st h).2 h2 pathId =
        errResp 401 "Authentication failed") := by
  have hclose : closeUser decode st h =
      (errResp 200 "Account and user successfully removed", st.erase p.user_id) := by
    simp [closeUser, ha]
  refine ⟨by rw [hclose], ?_, ?_⟩
  · rw [hclose]
    exact Store.get_erase_self st p.user_id
  · intro h2 cred hp2 hid
    have hauth2 : authUser decode (closeUser decode st h).2 h2 = none := by
      rw [hclose]
      simp [authUser, hp2, hid, Store.get_erase_self st p.user_id]
    exact ⟨hauth2, fun pathId => by simp [getUser, hauth2]⟩

/-- Witness for C8: closing the concrete account removes its key, and a GET
with the same credentials then answers 401. -/
theorem C8_witness :
    (closeUser decodeA stA hdrA).2.get "userAAA1" = none ∧
    getUser decodeA (closeUser decodeA stA hdrA).2 hdrA "userAAA1" =
      errResp 401 "Authentication failed" := by
  have hthm := C8_close_removes_record_and_credentials decodeA stA hdrA
    ⟨"userAAA1", bcryptHash "Passw0rd!", JVal.jstr "userAAA1", JVal.jnull⟩
    (by decide)
  exact ⟨hthm.2.1, (hthm.2.2 hdrA ⟨"userAAA1", "Passw0rd!"⟩ (by decide) rfl).2 "userAAA1"⟩

theorem Store.wf_set (st : Store) (k : String) (v : UserRec) (hwf : st.wf)
    (hv : v.user_id = k) : (st.set k v).wf := by
  intro k2 u2 hget
  by_cases hk : k2 = k
  · subst hk
    rw [Store.get_set_self] at hget
    injection hget with h2
    rw [← h2, hv]
  · rw [Store.get_set_ne st k k2 v hk] at hget
    exact hwf k2 u2 hget

theorem Store.wf_erase (st : Store) (k : String) (hwf : st.wf) :
    (st.erase k).wf := by
  intro k2 u2 hget
  by_cases hk : k2 = k
  · subst hk
    rw [Store.get_erase_self] at hget
    simp at hget
  · rw [Store.get_erase_ne st k k2 hk] at hget
    exact hwf k2 u2 hget

/-- Claim C9: every signup or update request that answers 400 leaves the
store unchanged: all validation happens before any insertion or mutation. -/
theorem C9_400_failure_atomicity :
    (∀ st req, (signup st req).1.status = 400 → (signup st req).2 = st) ∧
    (∀ decode st h pathId body,
      (patchUser decode st h pathId body).1.status = 400 →
      (patchUser decode st h pathId body).2 = st) := by
  constructor
  · intro st req hst
    simp only [signup] at hst ⊢
    split_ifs at hst ⊢ <;> simp_all [causeResp]
  · intro decode st h pathId body hst
    cases ha : authUser decode st h with
    | none => rw [patchUser_auth_fail decode st h pathId body ha]
    | some p =>
      cases hg : st.get pathId with
      | none => rw [patchUser_not_found decode st h pathId body p ha hg]
      | some u =>
        by_cases hown : p.user_id = pathId
        · simp only [patchUser, ha, hg] at hst ⊢
          rw [if_neg (by simp [hown])] at hst ⊢
          split_ifs at hst ⊢ <;> simp_all [causeResp]
        · rw [patchUser_forbidden decode st h pathId body p u ha hg hown]

/-- Witness for C9: a rejected signup (length cause) on the empty store
leaves it empty. -/
theorem C9_witness :
    (signup ⟨[]⟩ ⟨JVal.jstr "abc12", JVal.jstr "Passw0rd!",
        JVal.undef, JVal.undef⟩).2 = (⟨[]⟩ : Store) :=
  C9_400_failure_atomicity.1 ⟨[]⟩ _ (by decide)

/-- Claim C10: each operation touches at most the record it targets —
signup adds only the new user_id key, a successful PATCH on path k mutates
only the record under k, close removes only the principal's key — and the
invariant that every stored record's user_id equals its store key is
preserved by all three mutating operations. -/
theorem C10_frame_conditions :
    (∀ st req uid, req.user_id = JVal.jstr uid →
      (signup st req).1.status = 200 →
      ∀ k, k ≠ uid → (signup st req).2.get k = st.get k) ∧
    (∀ decode st h pathId body,
      (patchUser decode st h pathId body).1.status = 200 →
      ∀ k, k ≠ pathId → (patchUser decode st h pathId body).2.get k = st.get k) ∧
    (∀ decode st h p, authUser decode st h = some p →
      (closeUser decode st h).2.get p.user_id = none ∧
      ∀ k, k ≠ p.user_id → (closeUser decode st h).2.get k = st.get k) ∧
    (∀ st req, st.wf → ((signup st req).2).wf) ∧
    (∀ decode st h pathId body, st.wf →
      ((patchUser decode st h pathId body).2).wf) ∧
    (∀ decode st h, st.wf → ((closeUser decode st h).2).wf) := by
  refine ⟨?_, ?_, ?_, ?_, ?_, ?_⟩
  · intro st req uid hu h200 k hk
    simp only [signup] at h200 ⊢
    split_ifs at h200 ⊢ <;> try simp [causeResp] at h200
    rw [hu]
    exact Store.get_set_ne st _ k _ hk
  · intro decode st h pathId body h200 k hk
    cases ha : authUser decode st h with
    | none => rw [patchUser_auth_fail decode st h pathId body ha]
    | some p =>
      cases hg : st.get pathId with
      | none => rw [patchUser_not_found decode st h pathId body p ha hg]
      | some u =>
        by_cases hown : p.user_id = pathId
        · simp only [patchUser, ha, hg] at h200 ⊢
          rw [if_neg (by simp [hown])] at h200 ⊢
          split_ifs at h200 ⊢ <;>
            first
            | rfl
            | exact Store.get_set_ne st pathId k _ hk
        · rw [patchUser_forbidden decode st h pathId body p u ha hg hown]
  · intro decode st h p ha
    have hclose : (closeUser decode st h).2 = st.erase p.user_id := by
      simp [closeUser, ha]
    rw [hclose]
    exact ⟨Store.get_erase_self st p.user_id,
      fun k hk => Store.get_erase_ne st p.user_id k hk⟩
  · intro st req hwf
    simp only [signup]
    split_ifs <;> try exact hwf
    exact Store.wf_set st _ _ hwf rfl
  · intro decode st h pathId body hwf
    cases ha : authUser decode st h with
    | none =>
      rw [patchUser_auth_fail decode st h pathId body ha]
      exact hwf
    | some p =>
      cases hg : st.get pathId with
      | none =>
        rw [patchUser_not_found decode st h pathId body p ha hg]
        exact hwf
      | some u =>
        by_cases hown : p.user_id = pathId
        · simp only [patchUser, ha, hg]
          rw [if_neg (by simp [hown])]
          split_ifs <;>
            first
            | exact hwf
            | exact Store.wf_set st pathId _ hwf
                (by rw [applyPatch_user_id]; exact hwf pathId u hg)
        · rw [patchUser_forbidden decode st h pathId body p u ha hg hown]
          exact hwf
  · intro decode st h hwf
    cases ha : authUser decode st h with
    | none =>
      simp only [closeUser, ha]
      exact hwf
    | some p =>
      have hclose : (closeUser decode st h).2 = st.erase p.user_id := by
        simp [closeUser, ha]
      rw [hclose]
      exact Store.wf_erase st p.user_id hwf

/-- Witness for C10: the successful concrete signup adds no other key
(here, the seed key TaroYamada is unaffected on the empty store). -/
theorem C10_witness :
    (signup ⟨[]⟩ reqA).2.get "TaroYamada" = (⟨[]⟩ : Store).get "TaroYamada" :=
  C10_frame_conditions.1 ⟨[]⟩ reqA "userAAA1" rfl (by decide) "TaroYamada" (by decide)
